import Mathlib

/-!
Shallow embedding of the telegram-claude-bridge daemon core
(src/bridge/state.py, src/bridge/sessions.py, src/bridge/daemon.py,
src/bridge/telegram_bot.py), and proofs checking the specification
claims about it.

Python dictionaries are embedded as insertion-ordered association lists
with unique keys (`dictSet` replaces in place, appends when absent, like
`d[k] = v`; `dictErase` is `del` / `pop`).  `datetime.now()` values are
abstract `Nat` timestamps supplied by the caller.  `None` is `Option.none`.
External effects (Telegram sends, subprocess calls) are represented by
explicit environment records carrying their observable results.
-/

namespace Bridge

/-- Lookup in a Python-dict-like association list (`d.get(k)`). -/
def dictGet {α : Type} (m : List (String × α)) (k : String) : Option α :=
  match m with
  | [] => none
  | (k2, v) :: rest => if k2 = k then some v else dictGet rest k

/-- `d[k] = v`: replace the value in place when the key exists, append otherwise. -/
def dictSet {α : Type} (m : List (String × α)) (k : String) (v : α) : List (String × α) :=
  match m with
  | [] => [(k, v)]
  | (k2, v2) :: rest => if k2 = k then (k2, v) :: rest else (k2, v2) :: dictSet rest k v

/-- `d.pop(k, None)` / `del d[k]`, the effect on the map. -/
def dictErase {α : Type} (m : List (String × α)) (k : String) : List (String × α) :=
  match m with
  | [] => []
  | (k2, v) :: rest => if k2 = k then dictErase rest k else (k2, v) :: dictErase rest k

/-- `d.values()`. -/
def dictValues {α : Type} (m : List (String × α)) : List α :=
  m.map Prod.snd

/-- Decisions recorded on a pending request (`Literal["allow", "deny"]`). -/
inductive Decision
  | allow
  | deny
deriving DecidableEq, Repr

/-- `state.PendingRequest`: one outstanding approval decision.  The
`asyncio.Event` rendezvous primitive is embedded as the Boolean `eventSet`
(`event.is_set()`); `message_id` is the Telegram handle of the outbound
notification. -/
structure PendingRequest where
  request_id : String
  tool : String
  command : String
  session_id : Option String
  decision : Option Decision := none
  reason : Option String := none
  message_id : Option Nat := none
  eventSet : Bool := false
deriving DecidableEq, Repr

/-- `state.StateManager._pending`, the live set of pending requests. -/
abbrev PendingMap := List (String × PendingRequest)

namespace StateManager

/-- `StateManager.add`: `self._pending[request.request_id] = request`
(an unconditional dict write — no duplicate check). -/
def add (m : PendingMap) (r : PendingRequest) : PendingMap :=
  dictSet m r.request_id r

/-- `StateManager.get`. -/
def get (m : PendingMap) (request_id : String) : Option PendingRequest :=
  dictGet m request_id

/-- `StateManager.remove`: `self._pending.pop(request_id, None)`; the popped
value is ignored by every caller, so only the map effect is embedded. -/
def remove (m : PendingMap) (request_id : String) : PendingMap :=
  dictErase m request_id

/-- `StateManager.all`. -/
def all (m : PendingMap) : List PendingRequest :=
  dictValues m

/-- `StateManager.count`. -/
def count (m : PendingMap) : Nat :=
  m.length

end StateManager

/-- `sessions.Session`: one tracked agent run.  `created_at` / `updated_at`
are abstract timestamps. -/
structure Session where
  session_id : String
  tty : Option String := none
  cwd : Option String := none
  pid : Option Nat := none
  status : String := "unknown"
  last_message : Option String := none
  last_tool : Option String := none
  created_at : Nat
  updated_at : Nat
deriving DecidableEq, Repr

/-- The keyword arguments accepted by `Session.update` /
`SessionManager.create_or_update`.  A field value of `none` stands for the
keyword being absent or being supplied as Python `None`; the two are
indistinguishable in `Session.update` (its guard is `value is not None`). -/
structure SessionUpdate where
  tty : Option String := none
  cwd : Option String := none
  pid : Option Nat := none
  status : Option String := none
  last_message : Option String := none
  last_tool : Option String := none
deriving DecidableEq, Repr

/-- `Session.update`: for each supplied keyword, set the attribute only when
the value `is not None`; always refresh `updated_at`. -/
def Session.update (s : Session) (u : SessionUpdate) (now : Nat) : Session :=
  { session_id := s.session_id
    tty := match u.tty with | some v => some v | none => s.tty
    cwd := match u.cwd with | some v => some v | none => s.cwd
    pid := match u.pid with | some v => some v | none => s.pid
    status := match u.status with | some v => v | none => s.status
    last_message := match u.last_message with | some v => some v | none => s.last_message
    last_tool := match u.last_tool with | some v => some v | none => s.last_tool
    created_at := s.created_at
    updated_at := now }

/-- `Session(session_id=sid, **kwargs)`: dataclass construction with both
timestamps defaulting to now.  (The dataclass default for `status` is
`"unknown"`.) -/
def Session.new (sid : String) (u : SessionUpdate) (now : Nat) : Session :=
  { session_id := sid
    tty := u.tty
    cwd := u.cwd
    pid := u.pid
    status := u.status.getD "unknown"
    last_message := u.last_message
    last_tool := u.last_tool
    created_at := now
    updated_at := now }

/-- `sessions.SessionManager`: the session map `_sessions` plus the
allow-all marker set `_allowed_sessions`. -/
structure SessionManager where
  sessions : List (String × Session) := []
  allowed : List String := []
deriving DecidableEq, Repr

namespace SessionManager

def empty : SessionManager := {}

/-- `SessionManager.get`. -/
def get (mgr : SessionManager) (session_id : String) : Option Session :=
  dictGet mgr.sessions session_id

/-- `SessionManager.get_by_tty`: first session whose `tty` equals the query. -/
def get_by_tty (mgr : SessionManager) (tty : String) : Option Session :=
  (dictValues mgr.sessions).find? (fun s => s.tty == some tty)

/-- `SessionManager.create_or_update`: upsert.  When the id exists the stored
session is updated in place; otherwise a fresh `Session` is constructed and
inserted. -/
def create_or_update (mgr : SessionManager) (sid : String) (u : SessionUpdate)
    (now : Nat) : SessionManager × Session :=
  match dictGet mgr.sessions sid with
  | some s =>
      let s2 := s.update u now
      ({ mgr with sessions := dictSet mgr.sessions sid s2 }, s2)
  | none =>
      let s := Session.new sid u now
      ({ mgr with sessions := mgr.sessions ++ [(sid, s)] }, s)

/-- `SessionManager.remove`: delete the session (when present) and discard
its allow-all marker. -/
def remove (mgr : SessionManager) (sid : String) : SessionManager :=
  { sessions := dictErase mgr.sessions sid
    allowed := mgr.allowed.filter (fun x => x != sid) }

/-- `SessionManager.allow_session`: add the id to the allow-all set
(a Python `set.add`, so no duplicates). -/
def allow_session (mgr : SessionManager) (sid : String) : SessionManager :=
  { mgr with allowed := if sid ∈ mgr.allowed then mgr.allowed else mgr.allowed ++ [sid] }

/-- `SessionManager.is_session_allowed`: membership in the allow-all set. -/
def is_session_allowed (mgr : SessionManager) (sid : String) : Bool :=
  mgr.allowed.contains sid

/-- `SessionManager.all`. -/
def all (mgr : SessionManager) : List Session :=
  dictValues mgr.sessions

/-- `SessionManager.active`: sessions whose status is not `"ended"`. -/
def active (mgr : SessionManager) : List Session :=
  (dictValues mgr.sessions).filter (fun s => s.status != "ended")

/-- `SessionManager.waiting_for_input`: sessions with status
`"waiting_for_input"`. -/
def waiting_for_input (mgr : SessionManager) : List Session :=
  (dictValues mgr.sessions).filter (fun s => s.status == "waiting_for_input")

/-- `SessionManager.count`: `len(self.active())`. -/
def count (mgr : SessionManager) : Nat :=
  mgr.active.length

end SessionManager

/-- `daemon.PermissionRequestInput`: the request body of `POST /permission`. -/
structure PermissionRequestInput where
  request_id : Option String := none
  tool : String
  command : String
  session_id : Option String := none
deriving DecidableEq, Repr

/-- Observable external calls made by the daemon during one request:
`bot.send_permission_request` (identified by the request id it presents) and
`bot.update_message` (identified by the Telegram message id it edits; the
edited text is presentation-layer formatting and is not embedded). -/
inductive Notify
  | permission_request (request_id : String)
  | update_message (message_id : Nat)
deriving DecidableEq, Repr

/-- Environment of one `request_permission` call: the results of its
external interactions.  `gen_id` is the `uuid.uuid4()` value used when the
caller supplies no id; `send_result` is what `bot.send_permission_request`
returned (`none` = the Telegram send failed or the bot is uninitialized);
`wait_outcome` describes the `asyncio.wait_for(request.event.wait(), ...)`
rendezvous: `some (d, r)` means the event was set before the timeout with
the request carrying `decision = d` and `reason = r` at wake-up time,
`none` means the wait timed out. -/
structure BrokerEnv where
  gen_id : String
  send_result : Option Nat := none
  wait_outcome : Option (Option Decision × Option String) := none
deriving DecidableEq, Repr

/-- `request_id = data.request_id or str(uuid.uuid4())` — note the Python
`or` also discards an empty string. -/
def effective_request_id (env : BrokerEnv) (data : PermissionRequestInput) : String :=
  match data.request_id with
  | some s => if s = "" then env.gen_id else s
  | none => env.gen_id

/-- Result of one `POST /permission` call: the pending map after the call,
the response body, and the external calls made. -/
structure PermissionOutcome where
  pending : PendingMap
  decision : Decision
  reason : Option String
  notes : List Notify
deriving DecidableEq, Repr

/-- `daemon.request_permission` (daemon.py lines 129-177): build the
`PendingRequest`, `state.add` it, send it to Telegram, wait for the event
with the configured timeout (decision = `request.decision or "deny"` on a
set event, `("deny", "Timeout - no response received")` plus a Telegram
message edit on timeout), and `state.remove` the id in the `finally` block.
The handler takes no session-registry input because the source never reads
`sessions` here: in particular `sessions.is_session_allowed` is called
nowhere in the repository, so no allow-all fast path exists. -/
def request_permission (env : BrokerEnv) (pending0 : PendingMap)
    (data : PermissionRequestInput) : PermissionOutcome :=
  let rid := effective_request_id env data
  let req : PendingRequest :=
    { request_id := rid, tool := data.tool, command := data.command
      session_id := data.session_id }
  let pending1 := StateManager.add pending0 req
  let req1 := match env.send_result with
    | some mid => { req with message_id := some mid }
    | none => req
  let pending2 := match env.send_result with
    | some _ => dictSet pending1 rid req1
    | none => pending1
  match env.wait_outcome with
  | some (d, r) =>
      { pending := StateManager.remove pending2 rid
        decision := d.getD Decision.deny
        reason := r
        notes := [Notify.permission_request rid] }
  | none =>
      { pending := StateManager.remove pending2 rid
        decision := Decision.deny
        reason := some "Timeout - no response received"
        notes := [Notify.permission_request rid] ++
          (match req1.message_id with
           | some mid => [Notify.update_message mid]
           | none => []) }

/-- `daemon.SessionEvent`: the request body of `POST /session`. -/
structure SessionEventInput where
  session_id : String
  event : String
  status : Option String := none
  tty : Option String := none
  cwd : Option String := none
  pid : Option Nat := none
  tool : Option String := none
  message : Option String := none
  notification_type : Option String := none
deriving DecidableEq, Repr

/-- How one `POST /session` call terminates. -/
inductive HandlerOutcome
  /-- the handler returns its ok body -/
  | ok
  /-- the handler raises `AttributeError` on the un-awaited coroutine object -/
  | attribute_error
deriving DecidableEq, Repr

/-- `daemon.session_event` (daemon.py lines 86-125).  The statement
`session = sessions.create_or_update(...)` at daemon.py:96 calls the
`async def` method without `await`: Python builds a coroutine object and
never runs it, so the session registry is NOT modified by this handler;
`session` is bound to the coroutine object.  Consequently every later
attribute access on `session` raises `AttributeError`: `session.update(...)`
in the `Notification`/`idle_prompt`, `Stop` and `SessionEnd` branches, and
`session.display_cwd` inside `bot.notify_session_start` for `SessionStart`
(reached only when the bot application is initialized, since the notifier
first checks `if not self.app: return`).  Event kinds with no matching
branch (e.g. `PreToolUse`) return the ok body.  The registry component of
the result is therefore the input registry, unchanged, in every case. -/
def session_event (bot_initialized : Bool) (mgr : SessionManager)
    (data : SessionEventInput) : SessionManager × HandlerOutcome :=
  if data.event = "SessionStart" then
    (mgr, if bot_initialized then HandlerOutcome.attribute_error else HandlerOutcome.ok)
  else if data.event = "Notification" then
    if data.notification_type = some "idle_prompt" then
      (mgr, HandlerOutcome.attribute_error)
    else (mgr, HandlerOutcome.ok)
  else if data.event = "Stop" then (mgr, HandlerOutcome.attribute_error)
  else if data.event = "SessionEnd" then (mgr, HandlerOutcome.attribute_error)
  else (mgr, HandlerOutcome.ok)

/-- Whether a permission callback found a live request.  The source handler
returns `None` either way; the distinction is observable as which Telegram
message edit it performs (the "Request expired or already handled." edit
versus the decision edit), which is what the spec calls `NotFound` vs
success. -/
inductive ResolveResult
  | ok
  | notFound
deriving DecidableEq, Repr

/-- `telegram_bot.TelegramBot._handle_callback`, permission branch
(telegram_bot.py lines 378-412): look the target id up in the live pending
set; when absent, edit the message to "expired" and stop (`notFound`).
When present: `allow_session` marks the session of the request allow-all (when
it has one) and sets decision `allow`; `allow` sets decision `allow`; any
other action sets decision `deny` with reason "Denied via Telegram".  All
three then set the event of the request.  Presence in the map is the only
guard — a request whose decision is already set is resolved again. -/
def handle_permission_callback (mgr : SessionManager) (pending : PendingMap)
    (action : String) (target_id : String) :
    SessionManager × PendingMap × ResolveResult :=
  match StateManager.get pending target_id with
  | none => (mgr, pending, ResolveResult.notFound)
  | some req =>
      if action = "allow_session" then
        let mgr2 := match req.session_id with
          | some sid => mgr.allow_session sid
          | none => mgr
        let req2 := { req with decision := some Decision.allow, eventSet := true }
        (mgr2, dictSet pending target_id req2, ResolveResult.ok)
      else if action = "allow" then
        let req2 := { req with decision := some Decision.allow, eventSet := true }
        (mgr, dictSet pending target_id req2, ResolveResult.ok)
      else
        let req2 := { req with decision := some Decision.deny,
                               reason := some "Denied via Telegram", eventSet := true }
        (mgr, dictSet pending target_id req2, ResolveResult.ok)

/-- Result of one `subprocess.run` call: exit code and captured stdout
(stderr is only logged and does not influence control flow). -/
structure ProcResult where
  returncode : Int
  stdout : String
deriving DecidableEq, Repr

/-- Environment of one `Session.send_input` call: the observable results of
its external process calls.  `none` for a call means that call raised an
exception (e.g. `TimeoutExpired`), which the source catches and treats as a
strategy failure. -/
structure SendEnv where
  /-- module-level `TMUX_PATH` (`find_tmux()` result) -/
  tmux_path : Option String := none
  /-- `tmux list-panes -a -F ...` -/
  list_panes : Option ProcResult := none
  /-- `tmux send-keys ... -l text` -/
  send_keys : Option ProcResult := none
  /-- `tmux send-keys ... Enter` -/
  send_enter : Option ProcResult := none
  /-- `osascript -e iterm_script` -/
  osascript : Option ProcResult := none
deriving DecidableEq, Repr

/-- Python `str.strip()` with no argument: drop whitespace from both ends.
(Defined structurally over the character list so that it evaluates by
kernel reduction.) -/
def pyStrip (s : String) : String :=
  String.mk (((s.toList.dropWhile Char.isWhitespace).reverse.dropWhile
    Char.isWhitespace).reverse)

/-- Python `pat in line` for a non-empty pattern: `pat` occurs in `line`
exactly when splitting on it yields at least two pieces. -/
def strContains (line pat : String) : Bool :=
  (line.splitOn pat).length ≥ 2

/-- Python split with maxsplit 1 at spaces: split at the first space only. -/
def splitFirstSpace (line : String) : List String :=
  match line.splitOn " " with
  | [] => [line]
  | [x] => [x]
  | x :: rest => [x, String.intercalate " " rest]

/-- A pane line is usable for a given needle when it is non-empty, contains
the needle, and splits into exactly two parts (`if len(parts) == 2`); the
loop keeps scanning otherwise. -/
def pane_line_match (needle line : String) : Bool :=
  line ≠ "" && strContains line needle && (splitFirstSpace line).length = 2

/-- The tmux target chosen from the `list-panes` output lines: first the
pane whose line contains the tty of the session, else any pane of a tmux session
named `claude` (a line containing `"claude:"`). -/
def find_tmux_target (tty : String) (lines : List String) : Option String :=
  match lines.find? (pane_line_match tty) with
  | some line => some ((splitFirstSpace line).getD 1 "")
  | none =>
      match lines.find? (pane_line_match "claude:") with
      | some line => some ((splitFirstSpace line).getD 1 "")
      | none => none

/-- Method 1 of `Session.send_input` (sessions.py lines 71-129), the tmux
strategy.  `true` means the method executed `return True`; `false` means it
fell through to the next method (skipped when tmux is absent, the
`list-panes` call failed or raised, no target pane was found, either
`send-keys` call raised, or either exit code was non-zero). -/
def tmux_strategy (env : SendEnv) (tty : String) : Bool :=
  match env.tmux_path with
  | none => false
  | some _ =>
      match env.list_panes with
      | none => false
      | some r =>
          if r.returncode = 0 then
            match find_tmux_target tty ((pyStrip r.stdout).splitOn "\n") with
            | none => false
            | some _ =>
                match env.send_keys with
                | none => false
                | some sendr =>
                    match env.send_enter with
                    | none => false
                    | some enterr => sendr.returncode = 0 && enterr.returncode = 0
          else false

/-- Method 2 of `Session.send_input` (sessions.py lines 131-171), the
iTerm2 AppleScript strategy: success exactly when `osascript` exits 0 and
prints `ok`; any exception or other output is failure. -/
def iterm_strategy (env : SendEnv) : Bool :=
  match env.osascript with
  | none => false
  | some r => r.returncode = 0 && pyStrip r.stdout = "ok"

/-- `Session.send_input` (sessions.py lines 60-171): fail immediately when
the session has no tty (`if not self.tty`, which in Python is also true for
the empty string); otherwise try the tmux strategy and, only when it did
not succeed, return the outcome of the iTerm2 strategy. -/
def send_input (env : SendEnv) (s : Session) (text : String) : Bool :=
  match s.tty with
  | none => false
  | some t =>
      if t = "" then false
      else if tmux_strategy env t then true
      else iterm_strategy env

/-- Result of opening the terminal device for the raw write strategy. -/
inductive DeviceOpen
  | opened
  | permission_denied
  | device_not_found
deriving DecidableEq, Repr

/-- Outcome of the raw device write strategy. -/
inductive RawWriteOutcome
  | delivered (written : String)
  | failed (reason : String)
deriving DecidableEq, Repr

/-- Modelled from the spec: the "raw device write" injection strategy is
described as an alternate implementation track of this system, but no such
strategy exists under src/ (`Session.send_input` has only the tmux and
iTerm2 methods).  Following the words of the spec: open the terminal device
directly for writing, write `text + newline`, flush, close; surface a
permission error and a missing device as the distinct failure reasons
`PermissionDenied` and `DeviceNotFound`. -/
def raw_device_write (openResult : DeviceOpen) (text : String) : RawWriteOutcome :=
  match openResult with
  | DeviceOpen.opened => RawWriteOutcome.delivered (text ++ "\n")
  | DeviceOpen.permission_denied => RawWriteOutcome.failed "PermissionDenied"
  | DeviceOpen.device_not_found => RawWriteOutcome.failed "DeviceNotFound"

/-! Helper lemmas about the dict embedding. -/

theorem dictGet_erase {α : Type} (m : List (String × α)) (k : String) :
    dictGet (dictErase m k) k = none := by
  induction m with
  | nil => rfl
  | cons p rest ih =>
    cases p with
    | mk k2 v =>
      by_cases h : k2 = k <;> simp [dictErase, dictGet, h, ih]

theorem dictGet_set_self {α : Type} (m : List (String × α)) (k : String) (v : α) :
    dictGet (dictSet m k v) k = some v := by
  induction m with
  | nil => simp [dictSet, dictGet]
  | cons p rest ih =>
    cases p with
    | mk k2 v2 =>
      by_cases h : k2 = k <;> simp [dictSet, dictGet, h, ih]

theorem dictGet_set_other {α : Type} (m : List (String × α)) (k k2 : String) (v : α)
    (h : k2 ≠ k) : dictGet (dictSet m k v) k2 = dictGet m k2 := by
  induction m with
  | nil => simp [dictSet, dictGet, Ne.symm h]
  | cons p rest ih =>
    cases p with
    | mk k3 v3 =>
      by_cases h3 : k3 = k
      · subst h3
        simp [dictSet, dictGet, Ne.symm h]
      · by_cases h4 : k3 = k2 <;> simp [dictSet, dictGet, h3, h4, h, ih]

theorem contains_filter_ne_self (l : List String) (sid : String) :
    (l.filter (fun x => x != sid)).contains sid = false := by
  induction l with
  | nil => rfl
  | cons a l ih =>
    by_cases h : a = sid
    · simp_all [List.filter_cons]
    · simp_all [List.filter_cons, Ne.symm h]

/-! The claims. -/

/-- C5 counterexample: `Submit` with a `request_id` that is already live does
not fail with `DuplicateRequestID` — `StateManager.add` is an unconditional
dict write, so the second request replaces the first one in place. -/
theorem c5_duplicate_submit_counterexample :
    let r1 : PendingRequest :=
      { request_id := "r5", tool := "Bash", command := "first", session_id := none }
    let r2 : PendingRequest :=
      { request_id := "r5", tool := "Write", command := "second", session_id := none }
    let m := StateManager.add (StateManager.add [] r1) r2
    StateManager.get m "r5" = some r2 ∧ StateManager.get m "r5" ≠ some r1 ∧
      StateManager.count m = 1 := by
  decide

/-- C5 (amended): a `Submit` whose `request_id` already exists live does not
fail and does not keep the old entry — the add is an unconditional map
write, so the new request replaces the existing pending entry (last write
wins) and all other ids are untouched. -/
theorem c5_add_overwrites (m : PendingMap) (r : PendingRequest) (k : String) :
    StateManager.get (StateManager.add m r) k =
      (if k = r.request_id then some r else StateManager.get m k) := by
  by_cases h : k = r.request_id
  · subst h
    simp [StateManager.get, StateManager.add, dictGet_set_self]
  · simp [StateManager.get, StateManager.add, h, dictGet_set_other m r.request_id k r h]

/-- C9 (modelled from the spec, the raw device write strategy being absent
from src/): the strategy writes `text + newline` on success, and surfaces a
permission error and a missing device as the two distinct failure reasons
`PermissionDenied` and `DeviceNotFound`, never collapsed into one. -/
theorem c9_raw_device_write_distinct_failures (text : String) :
    raw_device_write DeviceOpen.opened text = RawWriteOutcome.delivered (text ++ "\n") ∧
    raw_device_write DeviceOpen.permission_denied text =
      RawWriteOutcome.failed "PermissionDenied" ∧
    raw_device_write DeviceOpen.device_not_found text =
      RawWriteOutcome.failed "DeviceNotFound" ∧
    raw_device_write DeviceOpen.permission_denied text ≠
      raw_device_write DeviceOpen.device_not_found text := by
  refine ⟨rfl, rfl, rfl, ?_⟩
  simp [raw_device_write]

/-- C6: `CreateOrUpdate` on an existing session updates it in place via
`Session.update`; a supplied field overwrites only when its value is not
`None`, every field not supplied (or supplied as `None`) keeps its stored
value, and `updated_at` is always refreshed.  In particular an update
supplying only `status = "waiting_for_input"` leaves `cwd`, `tty` and `pid`
unchanged. -/
theorem c6_partial_update_never_blanks (mgr : SessionManager) (sid : String)
    (u : SessionUpdate) (now : Nat) (s : Session) :
    ((mgr.create_or_update sid u now).2 =
      (match dictGet mgr.sessions sid with
       | some s0 => s0.update u now
       | none => Session.new sid u now)) ∧
    (s.update u now).updated_at = now ∧
    (s.update u now).tty = (match u.tty with | some v => some v | none => s.tty) ∧
    (s.update u now).cwd = (match u.cwd with | some v => some v | none => s.cwd) ∧
    (s.update u now).pid = (match u.pid with | some v => some v | none => s.pid) ∧
    (s.update u now).status = (match u.status with | some v => v | none => s.status) ∧
    (s.update u now).last_message =
      (match u.last_message with | some v => some v | none => s.last_message) ∧
    (s.update u now).last_tool =
      (match u.last_tool with | some v => some v | none => s.last_tool) ∧
    (s.update { status := some "waiting_for_input" } now).cwd = s.cwd ∧
    (s.update { status := some "waiting_for_input" } now).tty = s.tty ∧
    (s.update { status := some "waiting_for_input" } now).pid = s.pid ∧
    (s.update { status := some "waiting_for_input" } now).status = "waiting_for_input" := by
  refine ⟨?_, rfl, rfl, rfl, rfl, rfl, rfl, rfl, rfl, rfl, rfl, rfl⟩
  cases hq : dictGet mgr.sessions sid <;> simp [SessionManager.create_or_update, hq]

/-- C7: `Active()` returns exactly the stored sessions whose status is not
`"ended"`, `WaitingForInput()` exactly those with status
`"waiting_for_input"` (their stored fields intact), and `Count()` is the
size of `Active()`; and the scenario from the spec: after
`CreateOrUpdate("s1", status="waiting_for_input", last_message="pick one")`
on an empty registry, `WaitingForInput()` holds exactly session `"s1"`
with `last_message == "pick one"`. -/
theorem c7_registry_views (mgr : SessionManager) (s : Session) :
    (s ∈ mgr.active ↔ s ∈ mgr.all ∧ s.status ≠ "ended") ∧
    (s ∈ mgr.waiting_for_input ↔ s ∈ mgr.all ∧ s.status = "waiting_for_input") ∧
    mgr.count = mgr.active.length ∧
    ((SessionManager.empty.create_or_update "s1"
        { status := some "waiting_for_input", last_message := some "pick one" }
        0).1.waiting_for_input.map (fun t => (t.session_id, t.last_message)) =
      [("s1", some "pick one")]) := by
  refine ⟨?_, ?_, rfl, by decide⟩
  · simp [SessionManager.active, SessionManager.all, List.mem_filter, bne_iff_ne]
  · simp [SessionManager.waiting_for_input, SessionManager.all, List.mem_filter]

/-- C10: `MarkAllowAll` succeeds and `IsAllowAll` then reports true even
when the Registry holds no session for the id (the marker set is disjoint
state from the session map, and `allow_session` never consults the map);
`CreateOrUpdate` never changes the marker set, so the marker persists until
`Remove`, which is the only operation that discards it. -/
theorem c10_allow_all_marker_independent (mgr : SessionManager)
    (sid sid2 : String) (u : SessionUpdate) (now : Nat) :
    (mgr.allow_session sid).is_session_allowed sid = true ∧
    (mgr.allow_session sid).sessions = mgr.sessions ∧
    (SessionManager.empty.allow_session "s1").get "s1" = none ∧
    (SessionManager.empty.allow_session "s1").is_session_allowed "s1" = true ∧
    (mgr.create_or_update sid2 u now).1.allowed = mgr.allowed ∧
    (mgr.remove sid).allowed = mgr.allowed.filter (fun x => x != sid) ∧
    (mgr.remove sid).is_session_allowed sid = false := by
  refine ⟨?_, rfl, rfl, by decide, ?_, rfl, ?_⟩
  · by_cases h : sid ∈ mgr.allowed <;>
      simp [SessionManager.allow_session, SessionManager.is_session_allowed, h]
  · cases hq : dictGet mgr.sessions sid2 <;> simp [SessionManager.create_or_update, hq]
  · simp [SessionManager.remove, SessionManager.is_session_allowed,
      contains_filter_ne_self mgr.allowed sid]

/-- C1 (the code at the failing input): even with the allow-all marker set
for `"s1"`, a permission request for `"s1"` does not short-circuit to
`allow`: `request_permission` never consults the marker (the function takes
no session-registry input because daemon.py reads nothing from `sessions`
there, and `is_session_allowed` has no caller anywhere in the repository).
The request is registered, the approver IS notified, and with no resolution
the blocking wait ends in the timeout denial. -/
theorem c1_allow_all_fast_path_missing :
    (SessionManager.empty.allow_session "s1").is_session_allowed "s1" = true ∧
    (request_permission { gen_id := "r1", send_result := some 5, wait_outcome := none } []
        { tool := "Bash", command := "rm -rf /tmp/x", session_id := some "s1" }).decision =
      Decision.deny ∧
    (request_permission { gen_id := "r1", send_result := some 5, wait_outcome := none } []
        { tool := "Bash", command := "rm -rf /tmp/x", session_id := some "s1" }).notes =
      [Notify.permission_request "r1", Notify.update_message 5] := by
  decide

/-- C2 (the code at the failing input): handling an inbound session event
performs no Registry upsert at all — the `create_or_update` call at
daemon.py:96 is an un-awaited coroutine.  A `PreToolUse` event for `"s1"`
returns the ok body with the registry still empty; a `SessionStart` event
raises `AttributeError` on the coroutine object; no event kind ever changes
the registry.  The last conjunct shows the upsert itself, had it been
awaited, would have created the session. -/
theorem c2_session_event_performs_no_upsert :
    (∀ b mgr data, (session_event b mgr data).1 = mgr) ∧
    session_event true SessionManager.empty
        { session_id := "s1", event := "PreToolUse", status := some "running_tool",
          tool := some "Bash" } =
      (SessionManager.empty, HandlerOutcome.ok) ∧
    SessionManager.empty.get "s1" = none ∧
    session_event true SessionManager.empty
        { session_id := "s1", event := "SessionStart", status := some "processing",
          cwd := some "/w" } = (SessionManager.empty, HandlerOutcome.attribute_error) ∧
    ((SessionManager.empty.create_or_update "s1"
        { status := some "running_tool", last_tool := some "Bash" } 0).1.get "s1").isSome =
      true := by
  refine ⟨?_, by decide, rfl, by decide, by decide⟩
  intro b mgr data
  unfold session_event
  repeat' split
  all_goals rfl

/-- C3 counterexample: with no resolution arriving, the returned reason is
the literal `"Timeout - no response received"`, not the `"timeout"` the
claim states. -/
theorem c3_timeout_reason_counterexample :
    (request_permission { gen_id := "r3", wait_outcome := none } []
        { tool := "Bash", command := "ls", session_id := some "s3" }).reason =
      some "Timeout - no response received" ∧
    (some "Timeout - no response received" : Option String) ≠ some "timeout" := by
  decide

/-- C3 (amended): when no `Resolve` arrives before the timeout, the wait
ends via the `asyncio.TimeoutError` branch and the call returns exactly
decision `deny` with reason `"Timeout - no response received"`; the entry
is removed in the `finally` block, so it is absent from `List()` afterwards. -/
theorem c3_timeout_denies_and_removes (env : BrokerEnv) (pending : PendingMap)
    (data : PermissionRequestInput) :
    (request_permission { env with wait_outcome := none } pending data).decision =
      Decision.deny ∧
    (request_permission { env with wait_outcome := none } pending data).reason =
      some "Timeout - no response received" ∧
    StateManager.get
        (request_permission { env with wait_outcome := none } pending data).pending
        (effective_request_id { env with wait_outcome := none } data) = none := by
  refine ⟨?_, ?_, ?_⟩ <;>
    simp [request_permission, StateManager.get, StateManager.remove, dictGet_erase]

/-- C4 counterexample: a second `Resolve` for an id whose entry is still in
the live pending set (the waiter has not yet removed it) does not return
`NotFound` — it succeeds again and overwrites the recorded decision. -/
theorem c4_double_resolve_counterexample :
    let req : PendingRequest :=
      { request_id := "r4", tool := "Bash", command := "ls", session_id := some "s4" }
    let p0 := StateManager.add [] req
    let step1 := handle_permission_callback SessionManager.empty p0 "allow" "r4"
    let step2 := handle_permission_callback step1.1 step1.2.1 "deny" "r4"
    step1.2.2 = ResolveResult.ok ∧
    step2.2.2 = ResolveResult.ok ∧
    step2.2.2 ≠ ResolveResult.notFound ∧
    (StateManager.get step2.2.1 "r4").map PendingRequest.decision =
      some (some Decision.deny) := by
  decide

/-- C4 (amended): presence in the live pending set is the only guard a
`Resolve` has.  After `AwaitDecision` completes — decision or timeout — the
entry has been removed (the `finally` block, its single point of removal),
so every subsequent `Resolve` for that id is a no-op returning `NotFound`;
but while the entry is still live, every `Resolve` call succeeds, later
calls overwriting the decision of earlier ones. -/
theorem c4_resolve_guard_is_liveness (mgr mgr2 : SessionManager) (env : BrokerEnv)
    (pending pending2 : PendingMap) (data : PermissionRequestInput)
    (action action2 target : String) :
    StateManager.get (request_permission env pending data).pending
        (effective_request_id env data) = none ∧
    handle_permission_callback mgr (request_permission env pending data).pending
        action (effective_request_id env data) =
      (mgr, (request_permission env pending data).pending, ResolveResult.notFound) ∧
    (handle_permission_callback mgr2 pending2 action2 target).2.2 =
      (if (StateManager.get pending2 target).isSome then ResolveResult.ok
       else ResolveResult.notFound) := by
  have hgone : StateManager.get (request_permission env pending data).pending
      (effective_request_id env data) = none := by
    cases hw : env.wait_outcome with
    | none =>
        simp [request_permission, hw, StateManager.get, StateManager.remove, dictGet_erase]
    | some d =>
        cases d with
        | mk d r =>
            simp [request_permission, hw, StateManager.get, StateManager.remove,
              dictGet_erase]
  refine ⟨hgone, ?_, ?_⟩
  · simp [handle_permission_callback, hgone]
  · cases hq : StateManager.get pending2 target with
    | none => simp [handle_permission_callback, hq]
    | some req =>
        by_cases h1 : action2 = "allow_session"
        · cases hs : req.session_id <;>
            simp [handle_permission_callback, hq, h1, hs]
        · by_cases h2 : action2 = "allow" <;>
            simp [handle_permission_callback, hq, h1, h2]

/-- C8: `send_input` fails immediately when the session has no terminal
(the `NoTerminal` case, a Python-falsy `tty`), and otherwise the strategy
chain is "first success wins": the result is success of the tmux strategy
or else exactly the outcome of the iTerm2 strategy — so when the earlier
strategy fails, the outcome of the last strategy is the returned outcome.  The
final conjunct runs the chain where tmux is unavailable and iTerm2
succeeds. -/
theorem c8_dispatch_chain_first_success (env : SendEnv) (s : Session)
    (t text : String) :
    send_input env { s with tty := none } text = false ∧
    send_input env { s with tty := some t } text =
      (if t = "" then false else (tmux_strategy env t || iterm_strategy env)) ∧
    send_input { tmux_path := none, osascript := some { returncode := 0, stdout := "ok" } }
        { session_id := "s8", tty := some "/dev/ttys008", created_at := 0, updated_at := 0 }
        "reply text" = true := by
  refine ⟨rfl, ?_, by decide⟩
  by_cases h : t = ""
  · simp [send_input, h]
  · by_cases h2 : tmux_strategy env t <;> simp [send_input, h, h2]

end Bridge
